import Mathlib

/-
Verification development for the finance-app Telegram bot.

The embedded code comes from two revisions of the webhook function:
  - src/api/bot.js        (final revision: parser, four write/ask intents)
  - src/unnamed/part_000  (earlier revision: getReport, getTransactionList,
    getAccountBalances, plus the same parser/handlers)

JavaScript values flowing out of JSON.parse are modelled by the inductive
type Json below.  The platform JSON.parse itself is not repository code and
is modelled as a parameter of type String -> Option Json, where none stands
for a thrown SyntaxError.  Thrown exceptions inside handlers are modelled
by Except Unit.  Firestore is modelled as in-memory lists; setDoc with the
merge flag and add/addDoc follow the documented Firestore semantics
(documents keyed by id, merge overwrites only the supplied fields, and
undefined field values are rejected).
-/

set_option autoImplicit false

namespace FinanceBot

/-- A JavaScript value as produced by JSON.parse: null, booleans, numbers
(integral amounts suffice for this code base), strings, arrays, objects. -/
inductive Json where
  | null
  | bool (b : Bool)
  | num (n : Int)
  | str (s : String)
  | arr (elems : List Json)
  | obj (fields : List (String × Json))

/-- Property access v.k in JavaScript: a field lookup on objects, undefined
(none) on every other value.  Lookup on null or undefined itself throws and
is handled explicitly at each use site. -/
def getFieldJ : Json → String → Option Json
  | Json.obj fs, k => (fs.find? (fun p => p.1 = k)).map (fun p => p.2)
  | _, _ => none

/-- JavaScript truthiness of a JSON value. -/
def jsTruthyJ : Json → Bool
  | Json.null => false
  | Json.bool b => b
  | Json.num n => n != 0
  | Json.str s => s != ""
  | Json.arr _ => true
  | Json.obj _ => true

/-- JavaScript truthiness of an optional string (an absent property is
undefined, hence falsy; the empty string is falsy). -/
def jsTruthyOptStr : Option String → Bool
  | none => false
  | some s => s != ""

/-- The strict comparison v.intent === tag used by the dispatcher: true
exactly when v has an intent field holding the given string. -/
def isIntentTag (v : Json) (tag : String) : Bool :=
  match getFieldJ v "intent" with
  | some (Json.str t) => t = tag
  | _ => false

/-- The strict comparison v === s for a string literal s. -/
def isTypeStr (v : Json) (s : String) : Bool :=
  match v with
  | Json.str t => t = s
  | _ => false

/-- Whether a JSON value is the literal null (the dispatcher tests
analysis === null). -/
def Json.isNull : Json → Bool
  | Json.null => true
  | _ => false

/-- Rendering of a JSON value inside a template literal.  Arrays join their
elements in JavaScript; that rendering is elided (no claim exercises it). -/
def jsDisplay : Json → String
  | Json.null => "null"
  | Json.bool true => "true"
  | Json.bool false => "false"
  | Json.num n => toString n
  | Json.str s => s
  | Json.arr _ => ""
  | Json.obj _ => "[object Object]"

/-- Rendering of a possibly-undefined value inside a template literal. -/
def jsDisplayOpt : Option Json → String
  | none => "undefined"
  | some v => jsDisplay v

/-- JavaScript whitespace as far as the trimmed model inputs use it. -/
def isJsWhitespace (c : Char) : Bool := c = ' ' || c = '\t' || c = '\n' || c = '\r'

/-- String.prototype.trim, implemented structurally on the characters. -/
def trimString (s : String) : String :=
  (((s.toList.dropWhile isJsWhitespace).reverse.dropWhile isJsWhitespace).reverse).asString

/-- String.prototype.startsWith. -/
def strStartsWith (s pre : String) : Bool := pre.toList.isPrefixOf s.toList

/-- Splitting on a non-empty separator, fuelled so that the recursion is
structural (the fuel bounds the number of consumed characters). -/
def splitOnAuxFuel (sep : List Char) : Nat → List Char → List (List Char)
  | 0, l => [l]
  | _ + 1, [] => [[]]
  | fuel + 1, c :: cs =>
    if sep.isPrefixOf (c :: cs) then
      [] :: splitOnAuxFuel sep fuel (List.drop (sep.length - 1) cs)
    else
      match splitOnAuxFuel sep fuel cs with
      | [] => [[c]]
      | h :: t => (c :: h) :: t

/-- String.prototype.split with a non-empty string separator. -/
def strSplitOn (s sep : String) : List String :=
  (splitOnAuxFuel sep.toList (s.toList.length + 1) s.toList).map List.asString

/-- The numeric value of a decimal digit character. -/
def digitVal? (c : Char) : Option Nat :=
  if c = '0' then some 0 else if c = '1' then some 1 else if c = '2' then some 2
  else if c = '3' then some 3 else if c = '4' then some 4 else if c = '5' then some 5
  else if c = '6' then some 6 else if c = '7' then some 7 else if c = '8' then some 8
  else if c = '9' then some 9 else none

/-- Accumulates decimal digits into a number, none on a non-digit. -/
def digitsToNatAux : Nat → List Char → Option Nat
  | acc, [] => some acc
  | acc, c :: cs =>
    match digitVal? c with
    | some d => digitsToNatAux (acc * 10 + d) cs
    | none => none

/-- The natural number denoted by a non-empty all-digit string. -/
def strToNat? (s : String) : Option Nat :=
  match s.toList with
  | [] => none
  | l => digitsToNatAux 0 l

/-- Maps an ASCII digit to the Persian digit used by the fa-IR locale. -/
def persianDigit (c : Char) : Char :=
  if c = '0' then '۰' else if c = '1' then '۱' else if c = '2' then '۲'
  else if c = '3' then '۳' else if c = '4' then '۴' else if c = '5' then '۵'
  else if c = '6' then '۶' else if c = '7' then '۷' else if c = '8' then '۸'
  else if c = '9' then '۹' else c

/-- Inserts the fa-IR thousands separator every three digits; the input is
the reversed digit list. -/
def group3Aux : List Char → List Char
  | a :: b :: c :: d :: rest => a :: b :: c :: '٬' :: group3Aux (d :: rest)
  | l => l

/-- Models formatCurrency, that is Intl.NumberFormat with the fa-IR locale:
Persian digits with grouping separators.  No claim inspects this rendering;
only that it is a fixed pure function of the number matters. -/
def formatCurrency (n : Int) : String :=
  let digits := ((group3Aux (toString n.natAbs).toList.reverse).reverse.map persianDigit).asString
  (if n < 0 then "-" else "") ++ digits

/-- formatCurrency applied to a raw JSON field (the code passes t.amount
and data.balance directly). -/
def formatCurrencyJ : Json → String
  | Json.num n => formatCurrency n
  | v => jsDisplay v

/-- Models formatDate, the fa-IR rendering of a stored creation instant.
The exact glyphs are irrelevant to every claim; only purity matters. -/
def formatDate (ts : Nat) : String := toString ts

/- ------------------------------------------------------------------
Generative backend call model (getGeminiAnalysis, src/api/bot.js 110-157)
------------------------------------------------------------------- -/

/-- One reply candidate as read by the parser. -/
structure GenCandidate where
  finishReason : String

/-- The fields of the backend response object that the parser reads.
candidates = none models an absent (undefined) candidates array. -/
structure GenResponse where
  blockReason : Option String
  candidates : Option (List GenCandidate)
  text : String

/-- Outcome of the generateContent round trip: fail models a rejected
promise (network, auth, quota), ok a delivered response object. -/
inductive GenOutcome where
  | fail
  | ok (r : GenResponse)

/-- JavaScript String.prototype.substring with clamping to the string
length and swapping of out-of-order indices. -/
def jsSubstring (s : String) (a b : Nat) : String :=
  let n := s.length
  let a' := min a n
  let b' := min b n
  ((s.toList.drop (min a' b')).take (max a' b' - min a' b')).asString

/-- The code-fence stripping step of getGeminiAnalysis: if the text
contains a json fence take what stands between the fences, else if it
starts with a bare fence drop three characters from either end. -/
def stripCodeFence (s : String) : String :=
  if (strSplitOn s "```json").length > 1 then
    (strSplitOn ((strSplitOn s "```json").getD 1 "") "```").headD ""
  else if strStartsWith s "```" then
    jsSubstring s 3 (s.length - 3)
  else s

/-- The object literal the parser substitutes for degraded replies. -/
def unrecognizedJson : Json := Json.obj [("intent", Json.str "unrecognized")]

/-- getGeminiAnalysis (src/api/bot.js 110-157).  parseJson models the
platform JSON.parse; none stands for a thrown SyntaxError.  A safety
block, an absent candidates array, a non-STOP finish reason, an empty
text and a parse failure all degrade to the unrecognized object; a
rejected call returns the JavaScript null.  A present but empty
candidates array makes candidates[0].finishReason throw a TypeError,
which the catch block does not recognise as a SyntaxError, so that
degenerate reply also returns null. -/
def getGeminiAnalysis (parseJson : String → Option Json) (o : GenOutcome) : Json :=
  match o with
  | GenOutcome.fail => Json.null
  | GenOutcome.ok r =>
    if jsTruthyOptStr r.blockReason then unrecognizedJson
    else
      match r.candidates with
      | none => unrecognizedJson
      | some [] => Json.null
      | some (c :: _) =>
        if c.finishReason ≠ "STOP" then unrecognizedJson
        else if r.text = "" then unrecognizedJson
        else
          match parseJson (trimString (stripCodeFence r.text)) with
          | none => unrecognizedJson
          | some v => v

/- ------------------------------------------------------------------
Persistent store model
------------------------------------------------------------------- -/

/-- A Firestore document as a field map (association list, unique keys). -/
abbrev FieldDoc := List (String × Json)

/-- A transaction record as written by addTransaction.  Firestore rejects
undefined field values, so a successfully stored record always carries
all of these fields; category is always defined because of the fallback. -/
structure TransactionDoc where
  type : Json
  amount : Json
  description : Json
  category : Json
  date : String
  time : String
  createdAt : Nat

/-- The Tehran wall-clock instant the reminder code works with: an
abstract calendar-day counter plus hour, minute, second.  setDate(+1)
moves to the next calendar day, which the day counter models. -/
structure LocalTime where
  day : Nat
  hour : Nat
  minute : Nat
  second : Nat

/-- Total seconds of a local instant, the order Date comparison uses. -/
def LocalTime.toSec (t : LocalTime) : Nat :=
  t.day * 86400 + t.hour * 3600 + t.minute * 60 + t.second

/-- A reminder record as written by setReminder. -/
structure ReminderDoc where
  message : Json
  runAt : LocalTime
  isSent : Bool

/-- The per-user slice of the document store that this code touches. -/
structure Store where
  transactions : List TransactionDoc
  accounts : List (String × FieldDoc)
  reminders : List ReminderDoc
  installments : List FieldDoc

/-- A store with no records at all. -/
def emptyStore : Store := ⟨[], [], [], []⟩

/-- The wall-clock inputs addTransaction stamps onto a record. -/
structure ClockCtx where
  dateStr : String
  timeStr : String
  nowTs : Nat

/-- Sets one field of a document, overwriting in place or appending, as a
Firestore merge write does per supplied field. -/
def setField : FieldDoc → String → Json → FieldDoc
  | [], k, v => [(k, v)]
  | p :: ps, k, v => if p.1 = k then (k, v) :: ps else p :: setField ps k v

/-- Applies every supplied field of a merge write to a document. -/
def mergeFields (d : FieldDoc) (data : FieldDoc) : FieldDoc :=
  data.foldl (fun acc p => setField acc p.1 p.2) d

/-- setDoc with the merge flag on a collection keyed by document id:
merge into the existing document, or create it with the given fields.
Firestore ids are unique, so only the first match is relevant. -/
def setDocMerge : List (String × FieldDoc) → String → FieldDoc → List (String × FieldDoc)
  | [], key, data => [(key, data)]
  | p :: ps, key, data =>
    if p.1 = key then (p.1, mergeFields p.2 data) :: ps
    else p :: setDocMerge ps key data

/-- Document lookup by id in a collection. -/
def lookupDoc : List (String × FieldDoc) → String → Option FieldDoc
  | [], _ => none
  | p :: ps, n => if p.1 = n then some p.2 else lookupDoc ps n

/-- Field lookup inside a document. -/
def lookupField : FieldDoc → String → Option Json
  | [], _ => none
  | p :: ps, k => if p.1 = k then some p.2 else lookupField ps k

/-- One field of one account document, as a later read would see it. -/
def getAccountField (st : Store) (name k : String) : Option Json :=
  match lookupDoc st.accounts name with
  | none => none
  | some d => lookupField d k

/- ------------------------------------------------------------------
Write handlers (src/api/bot.js 161-205)
------------------------------------------------------------------- -/

/-- addTransaction (src/api/bot.js 161-174).  Reading a property of an
undefined or null transactionData throws; Firestore add rejects records
with undefined type, amount or description; the category field falls back
to the default through the JavaScript or-expression, so a falsy supplied
category (absent, null, empty string, zero, false) becomes the default
while every truthy value is stored unchanged. -/
def addTransaction (c : ClockCtx) (td : Option Json) (st : Store) :
    Except Unit (TransactionDoc × Store) :=
  match td with
  | none => Except.error ()
  | some Json.null => Except.error ()
  | some j =>
    match getFieldJ j "type", getFieldJ j "amount", getFieldJ j "description" with
    | some ty, some am, some de =>
      let cat := match getFieldJ j "category" with
        | some v => if jsTruthyJ v then v else Json.str "سایر"
        | none => Json.str "سایر"
      let d : TransactionDoc :=
        { type := ty, amount := am, description := de, category := cat,
          date := c.dateStr, time := c.timeStr, createdAt := c.nowTs }
      Except.ok (d, { st with transactions := st.transactions ++ [d] })
    | _, _, _ => Except.error ()

/-- updateAccountBalance (src/api/bot.js 176-184).  Reading name off an
undefined or null accountData throws, a non-string name makes the doc
path constructor throw, an undefined balance is rejected by Firestore;
otherwise a merge write keyed by the account name sets name, balance and
updatedAt and leaves every other field of the document alone. -/
def updateAccountBalance (nowTs : Nat) (ad : Option Json) (st : Store) :
    Except Unit (Json × Store) :=
  match ad with
  | none => Except.error ()
  | some Json.null => Except.error ()
  | some j =>
    match getFieldJ j "name" with
    | some (Json.str n) =>
      match getFieldJ j "balance" with
      | none => Except.error ()
      | some bv =>
        let data : FieldDoc :=
          [("name", Json.str n), ("balance", bv), ("updatedAt", Json.num (Int.ofNat nowTs))]
        Except.ok (j, { st with accounts := setDocMerge st.accounts n data })
    | _ => Except.error ()

/-- Number() applied to one time component: empty or blank strings give
zero, otherwise the decimal digits; other shapes give NaN, which makes
the downstream date invalid so Timestamp.fromDate throws (none here). -/
def jsNumberNat (s : String) : Option Nat :=
  if trimString s = "" then some 0 else strToNat? (trimString s)

/-- time.split on the colon followed by Number on the first two parts, as
the destructuring of setReminder performs it.  A single part leaves the
minutes undefined hence NaN. -/
def hmOfString (t : String) : Option (Nat × Nat) :=
  match strSplitOn t ":" with
  | a :: b :: _ =>
    match jsNumberNat a, jsNumberNat b with
    | some h, some m => some (h, m)
    | _, _ => none
  | _ => none

/-- setReminder (src/api/bot.js 186-205).  The requested clock time on
the current Tehran day, pushed to the next day when that instant is
strictly before now (now carries the seconds of the wall clock, the
requested instant has zero seconds); stores the reminder unsent. -/
def setReminder (now : LocalTime) (rd : Option Json) (st : Store) :
    Except Unit (String × Store) :=
  match rd with
  | none => Except.error ()
  | some Json.null => Except.error ()
  | some j =>
    match getFieldJ j "time" with
    | some (Json.str t) =>
      match hmOfString t with
      | none => Except.error ()
      | some (h, m) =>
        match getFieldJ j "message" with
        | none => Except.error ()
        | some msg =>
          let reminderTime : LocalTime := { day := now.day, hour := h, minute := m, second := 0 }
          let runAt := if reminderTime.toSec < now.toSec then
              { reminderTime with day := reminderTime.day + 1 }
            else reminderTime
          Except.ok
            ("✅ یادآوری تنظیم شد:\n\"" ++ jsDisplay msg ++ "\"\nدر ساعت " ++ t,
             { st with reminders := st.reminders ++
                [{ message := msg, runAt := runAt, isSent := false }] })
    | _ => Except.error ()

/- ------------------------------------------------------------------
Context assembler and question handler (src/api/bot.js 210-292)
------------------------------------------------------------------- -/

/-- Insert a transaction into a createdAt-descending list. -/
def insertByCreatedDesc (t : TransactionDoc) : List TransactionDoc → List TransactionDoc
  | [] => [t]
  | u :: us => if t.createdAt ≤ u.createdAt then u :: insertByCreatedDesc t us
               else t :: u :: us

/-- The createdAt-descending ordering the store applies to the query. -/
def sortByCreatedDesc (l : List TransactionDoc) : List TransactionDoc :=
  l.foldr insertByCreatedDesc []

/-- One line of the transactions block of the context. -/
def askTxLine (t : TransactionDoc) : String :=
  "- " ++ formatDate t.createdAt ++ ": "
    ++ (if isTypeStr t.type "expense" then "هزینه" else "درآمد") ++ "، "
    ++ formatCurrencyJ t.amount ++ " تومان، " ++ jsDisplay t.description
    ++ " (دسته: " ++ jsDisplay t.category ++ ")\n"

/-- One line of the accounts block of the context. -/
def askAccountLine (d : FieldDoc) : String :=
  "- " ++ jsDisplayOpt (lookupField d "name") ++ ": "
    ++ formatCurrencyJ ((lookupField d "balance").getD Json.null) ++ " تومان\n"

/-- One line of the installments block of the context. -/
def askInstallmentLine (d : FieldDoc) : String :=
  "- " ++ jsDisplayOpt (lookupField d "name") ++ ": "
    ++ formatCurrencyJ ((lookupField d "amount").getD Json.null)
    ++ " تومان (هر ماه روز " ++ jsDisplayOpt (lookupField d "day") ++ "م)\n"

/-- The raw contextData string of handleAskQuestion before the no-data
substitution: three blocks appended in order, each only when its
collection delivered at least one record; now30 is the instant thirty
days before now, the lower bound of the transactions query. -/
def contextDataRaw (now30 : Nat) (st : Store) : String :=
  let txs := st.transactions.filter (fun t => now30 ≤ t.createdAt)
  (if txs.isEmpty then ""
   else "--- تراکنش‌های ۳۰ روز گذشته ---\n"
     ++ String.join ((sortByCreatedDesc txs).map askTxLine))
  ++ (if st.accounts.isEmpty then ""
      else "\n--- موجودی حساب‌ها ---\n"
        ++ String.join (st.accounts.map (fun p => askAccountLine p.2)))
  ++ (if st.installments.isEmpty then ""
      else "\n--- لیست اقساط ماهانه ---\n"
        ++ String.join (st.installments.map askInstallmentLine))

/-- The no-data placeholder substituted for an empty context. -/
def noDataPlaceholder : String :=
  "هیچ داده‌ای (تراکنش، حساب یا قسط) هنوز ثبت نشده است."

/-- The reply when the store reads of handleAskQuestion throw. -/
def dbErrMsg : String :=
  "خطا در خواندن اطلاعات از پایگاه‌داده. (آیا ایندکس‌ها ساخته شده‌اند؟)"

/-- The reply when the analyst model call of handleAskQuestion throws. -/
def aiErrMsg : String :=
  "خطا در هنگام تحلیل داده‌ها توسط هوش مصنوعی."

/-- The analyst instruction block with the context data spliced in. -/
def analystPrompt (contextData : String) : String :=
  "شما یک حسابدار ارشد و مشاور مالی شخصی بسیار دقیق و خوش‌برخورد به زبان فارسی هستید."
    ++ "\n---\nداده‌های خام کاربر:\n" ++ contextData ++ "\n---\n"

/-- handleAskQuestion (src/api/bot.js 210-292).  fetchFails models the
first try block throwing on any of the three store reads (the handler
replies with the database-error text before the analyst call is issued);
analystCall models the second generateContent round trip on the analyst
prompt and the quoted question, whose failure yields the analysis-error
text; otherwise the model text is returned verbatim.  The handler only
reads the store. -/
def handleAskQuestion (fetchFails : Bool)
    (analystCall : String → String → Except Unit String)
    (now30 : Nat) (question : Option Json) (st : Store) : String :=
  if fetchFails then dbErrMsg
  else
    let raw := contextDataRaw now30 st
    let contextData := if raw = "" then noDataPlaceholder else raw
    match analystCall (analystPrompt contextData)
        ("سوال کاربر: \"" ++ jsDisplayOpt question ++ "\"") with
    | Except.error _ => aiErrMsg
    | Except.ok s => s

/- ------------------------------------------------------------------
Report, list and balance handlers (src/unnamed/part_000 194-315)
------------------------------------------------------------------- -/

/-- The local date anchors getDateRange derives from the current instant:
local midnight of today, the first instant of the current month, and the
last day of the month at 23:59:59. -/
structure DateCtx where
  startOfToday : Nat
  startOfMonth : Nat
  endOfMonth : Nat

/-- The date window filter the report and list handlers push into the
query: today is half open at the next midnight, month is inclusive of
its final second, anything else (all_time) is unfiltered. -/
def filterByPeriod (ctx : DateCtx) (period : String) (txs : List TransactionDoc) :
    List TransactionDoc :=
  if period = "today" then
    txs.filter (fun t => ctx.startOfToday ≤ t.createdAt
      && t.createdAt < ctx.startOfToday + 86400)
  else if period = "month" then
    txs.filter (fun t => ctx.startOfMonth ≤ t.createdAt && t.createdAt ≤ ctx.endOfMonth)
  else txs

/-- The kind filter: expense and income select their own records, any
other requested kind (all) leaves the set unfiltered. -/
def filterByType (ty : String) (txs : List TransactionDoc) : List TransactionDoc :=
  if ty = "expense" then txs.filter (fun t => isTypeStr t.type "expense")
  else if ty = "income" then txs.filter (fun t => isTypeStr t.type "income")
  else txs

/-- A stored amount as the arithmetic of the report loop consumes it.
Every record written by addTransaction in practice carries a numeric
amount; other shapes would poison the sum with NaN in JavaScript and are
mapped to zero here (no claim exercises them). -/
def amountInt : Json → Int
  | Json.num n => n
  | _ => 0

/-- The localized period word of the report and list replies. -/
def periodTextOf (period : String) : String :=
  if period = "today" then "امروز" else if period = "month" then "این ماه" else ""

/-- The accumulation loop of getReport (src/unnamed/part_000 194-235):
for the kind all every income adds and every other record subtracts,
otherwise the filtered amounts add up. -/
def getReportTotal (ctx : DateCtx) (ty period : String) (txs : List TransactionDoc) : Int :=
  let q := filterByType ty (filterByPeriod ctx period txs)
  q.foldl (fun acc t =>
    if ty = "all" then
      (if isTypeStr t.type "income" then acc + amountInt t.amount
       else acc - amountInt t.amount)
    else acc + amountInt t.amount) 0

/-- The reply line of getReport. -/
def getReport (ctx : DateCtx) (ty period : String) (txs : List TransactionDoc) : String :=
  let typeText := if ty = "expense" then "خرج"
    else if ty = "income" then "درآمد" else "تراز مالی"
  "مجموع " ++ typeText ++ " شما در " ++ periodTextOf period ++ ": "
    ++ formatCurrency (getReportTotal ctx ty period txs) ++ " تومان"

/-- One line of the transaction list reply. -/
def listTxLine (t : TransactionDoc) : String :=
  "• " ++ jsDisplay t.description ++ " (" ++ jsDisplay t.category ++ "): "
    ++ (if isTypeStr t.type "expense" then "-" else "+")
    ++ formatCurrencyJ t.amount ++ " تومان\n"

/-- getTransactionList (src/unnamed/part_000 237-275): same filters as
the report, descending by creation instant, a dedicated no-transactions
message when the filtered window is empty (the emptiness test is on the
query snapshot, whose ordering does not affect emptiness). -/
def getTransactionList (ctx : DateCtx) (ty period : String)
    (txs : List TransactionDoc) : String :=
  let q := filterByType ty (filterByPeriod ctx period txs)
  if q.isEmpty then "هیچ تراکنشی برای " ++ periodTextOf period ++ " یافت نشد."
  else
    "لیست تراکنش‌های شما (" ++ periodTextOf period ++ "):\n\n"
      ++ String.join ((sortByCreatedDesc q).map listTxLine)

/-- getAccountBalances (src/unnamed/part_000 288-315).  The name
argument is the string the handler destructures off the request; the
sentinel all enumerates every account with a grand total and returns a
guidance message when none is registered; otherwise a by-name lookup
with a dedicated not-found message. -/
def getAccountBalances (accountName : String) (st : Store) : String :=
  if accountName = "all" then
    match st.accounts with
    | [] => "هنوز هیچ حسابی ثبت نکرده‌اید. (مثال: موجودی بانک ملی 500000)"
    | accs =>
      let body := String.join (accs.map (fun p =>
        "🏦 " ++ jsDisplayOpt (lookupField p.2 "name") ++ ": "
          ++ formatCurrencyJ ((lookupField p.2 "balance").getD Json.null) ++ " تومان\n"))
      let total := accs.foldl (fun acc p =>
        acc + amountInt ((lookupField p.2 "balance").getD Json.null)) 0
      "گزارش موجودی حساب‌ها:\n\n" ++ body
        ++ "\n**موجودی کل: " ++ formatCurrency total ++ " تومان**"
  else
    match lookupDoc st.accounts accountName with
    | none => "حسابی به نام \"" ++ accountName ++ "\" یافت نشد."
    | some d =>
      "🏦 موجودی " ++ jsDisplayOpt (lookupField d "name") ++ ": "
        ++ formatCurrencyJ ((lookupField d "balance").getD Json.null) ++ " تومان"

/- ------------------------------------------------------------------
Dispatcher and access guard (src/api/bot.js 48-55 and 295-341)
------------------------------------------------------------------- -/

/-- The fixed not-authorized reply of the security middleware. -/
def notAuthMsg : String := "شما مجاز به استفاده از این ربات نیستید."

/-- The generic server-error reply of the dispatcher catch block. -/
def serverErrMsg : String := "خطایی در سرور رخ داد. لطفاً بعداً تلاش کنید."

/-- The reply for a null analysis (failed model call). -/
def aiConnErrMsg : String :=
  "خطایی در ارتباط با هوش مصنوعی رخ داد. لطفاً بعداً تلاش کنید."

/-- The catch-all did-not-understand reply of the dispatcher. -/
def didNotUnderstandMsg : String :=
  "متوجه پیام شما نشدم. لطفاً دوباره تلاش کنید (مثلاً: \"هزینه 10000 تست\" یا \"وضعیت مالی من چطوره؟\")"

/-- The confirmation reply after a stored transaction. -/
def addTransactionReply (nt : TransactionDoc) : String :=
  (if isTypeStr nt.type "income" then "درآمد" else "هزینه")
    ++ " به مبلغ " ++ formatCurrencyJ nt.amount ++ " تومان\n(شرح: "
    ++ jsDisplay nt.description ++ " | دسته‌بندی: " ++ jsDisplay nt.category ++ ")"
    |> (fun body => "✅ ثبت شد:\n" ++ body)

/-- The confirmation reply after a balance upsert (echoes the request). -/
def updateBalanceReply (acc : Json) : String :=
  "✅ موجودی ثبت/به‌روز شد:\n" ++ jsDisplayOpt (getFieldJ acc "name") ++ ": "
    ++ formatCurrencyJ ((getFieldJ acc "balance").getD Json.null) ++ " تومان"

/-- The environment a single text update is processed against: the
modelled JSON.parse, the parser round-trip outcome, the wall clocks, and
the ask-question collaborators. -/
structure BotDeps where
  parseJson : String → Option Json
  genOutcome : GenOutcome
  clock : ClockCtx
  localNow : LocalTime
  askFetchFails : Bool
  analystCall : String → String → Except Unit String
  now30 : Nat

/-- The dispatch over an analysis value (src/api/bot.js 299-341): one
branch per known intent tag running its handler, the null branch for the
failed call, the catch-all for everything else; a handler exception is
caught and answered with the generic server-error reply, leaving the
store untouched by that message. -/
def botOnText (d : BotDeps) (analysis : Json) (st : Store) : String × Store :=
  if jsTruthyJ analysis && isIntentTag analysis "add_transaction" then
    match addTransaction d.clock (getFieldJ analysis "transaction") st with
    | Except.ok (nt, st') => (addTransactionReply nt, st')
    | Except.error _ => (serverErrMsg, st)
  else if jsTruthyJ analysis && isIntentTag analysis "update_balance" then
    match updateAccountBalance d.clock.nowTs (getFieldJ analysis "account") st with
    | Except.ok (acc, st') => (updateBalanceReply acc, st')
    | Except.error _ => (serverErrMsg, st)
  else if jsTruthyJ analysis && isIntentTag analysis "set_reminder" then
    match setReminder d.localNow (getFieldJ analysis "reminder") st with
    | Except.ok (msg, st') => (msg, st')
    | Except.error _ => (serverErrMsg, st)
  else if jsTruthyJ analysis && isIntentTag analysis "ask_question" then
    (handleAskQuestion d.askFetchFails d.analystCall d.now30
      (getFieldJ analysis "question") st, st)
  else
    match analysis with
    | Json.null => (aiConnErrMsg, st)
    | _ => (didNotUnderstandMsg, st)

/-- One inbound text update through the security middleware and the
dispatcher (src/api/bot.js 48-55, 299-341): the sender identity (the
optional from field rendered to a string) must strictly equal the
configured operator chat id, else the fixed not-authorized reply is the
only effect. -/
def handleMessage (chatId : Option String) (fromId : Option String)
    (d : BotDeps) (st : Store) : String × Store :=
  if fromId == chatId then
    botOnText d (getGeminiAnalysis d.parseJson d.genOutcome) st
  else (notAuthMsg, st)

/- ------------------------------------------------------------------
Category enumeration and shared sample values
------------------------------------------------------------------- -/

/-- VALID_CATEGORIES.income (src/api/bot.js 15-18). -/
def validCategoriesIncome : List String :=
  ["فلش", "فیلترشکن", "اینستاگرام", "اپل آیدی", "همکار", "سایر"]

/-- VALID_CATEGORIES.expense (src/api/bot.js 15-18). -/
def validCategoriesExpense : List String :=
  ["خوراک", "پوشاک", "قهوه", "قسط", "اینترنت", "سایر"]

/-- A concrete wall clock shared by the concrete evaluations. -/
def sampleClock : ClockCtx := { dateStr := "2026-10-12", timeStr := "10:30", nowTs := 1000 }

/-- A concrete processing environment shared by the concrete evaluations. -/
def sampleDeps : BotDeps :=
  { parseJson := fun _ => none
    genOutcome := GenOutcome.fail
    clock := sampleClock
    localNow := { day := 0, hour := 0, minute := 0, second := 0 }
    askFetchFails := false
    analystCall := fun _ _ => Except.error ()
    now30 := 0 }

/-- The text and modelled parse of a well-formed reply carrying only the
add_transaction intent tag, exactly as JSON.parse would decode it. -/
def addIntentOnlyText : String := "\x7b\"intent\": \"add_transaction\"\x7d"

/-- The JSON.parse model used for the well-formed tag-only reply. -/
def addIntentOnlyParse : String → Option Json := fun s =>
  if s = addIntentOnlyText then some (Json.obj [("intent", Json.str "add_transaction")])
  else none

/-- The request object of one UpdateBalance call with a given name and
balance, as the parser would deliver it. -/
def mkBalanceCall (name : String) (b : Int) : Json :=
  Json.obj [("name", Json.str name), ("balance", Json.num b)]

/-- One UpdateBalance call applied to the store (always succeeds for a
well-formed name/balance request; a failure leaves the store unchanged,
mirroring the dispatcher catch). -/
def stepBalance (name : String) (b : Int) (ts : Nat) (st : Store) : Store :=
  match updateAccountBalance ts (some (mkBalanceCall name b)) st with
  | Except.ok p => p.2
  | Except.error _ => st

/-- A sequence of UpdateBalance calls for one account name, each given as
a balance and a call instant. -/
def runBalanceUpdates (name : String) (calls : List (Int × Nat)) (st : Store) : Store :=
  calls.foldl (fun s c => stepBalance name c.1 c.2 s) st

/-- A concrete date context whose today window is the first day. -/
def sampleDateCtx : DateCtx := { startOfToday := 0, startOfMonth := 0, endOfMonth := 100000 }

/-- One income of 100 and one expense of 40, both inside the today
window of the sample date context. -/
def sampleDayTxs : List TransactionDoc :=
  [{ type := Json.str "income", amount := Json.num 100, description := Json.str "فلش",
     category := Json.str "سایر", date := "", time := "", createdAt := 10 },
   { type := Json.str "expense", amount := Json.num 40, description := Json.str "قهوه",
     category := Json.str "خوراک", date := "", time := "", createdAt := 20 }]

/- ------------------------------------------------------------------
Helper lemmas
------------------------------------------------------------------- -/

theorem ne_empty_append_left {s t : String} (h : s ≠ "") : s ++ t ≠ "" := by
  intro he
  apply h
  have hd : s.data ++ t.data = ([] : List Char) := by
    have := congrArg String.data he
    simpa [String.data_append] using this
  have : s.data = [] := by
    cases hs : s.data with
    | nil => rfl
    | cons a as => rw [hs] at hd; simp at hd
  cases s
  simp_all

theorem ne_empty_append_right {s t : String} (h : t ≠ "") : s ++ t ≠ "" := by
  intro he
  apply h
  have hd : s.data ++ t.data = ([] : List Char) := by
    have := congrArg String.data he
    simpa [String.data_append] using this
  have : t.data = [] := by
    have := List.append_eq_nil.mp hd
    exact this.2
  cases t
  simp_all

/- ------------------------------------------------------------------
Claim theorems
------------------------------------------------------------------- -/

/-- Claim C1: every delivered reply that is safety-blocked, carries a
non-STOP finish reason, has an empty body, or fails to parse as JSON
resolves to the unrecognized object (never to the null transport-failure
result), while an outright call failure resolves to null, which is
distinct from the unrecognized object. -/
theorem C1_parser_degradation_vs_transport
    (parseJson : String → Option Json) (r : GenResponse) :
    (jsTruthyOptStr r.blockReason = true →
      getGeminiAnalysis parseJson (GenOutcome.ok r) = unrecognizedJson) ∧
    (∀ c cs, r.candidates = some (c :: cs) → c.finishReason ≠ "STOP" →
      getGeminiAnalysis parseJson (GenOutcome.ok r) = unrecognizedJson) ∧
    (r.candidates = none →
      getGeminiAnalysis parseJson (GenOutcome.ok r) = unrecognizedJson) ∧
    (∀ c cs, r.candidates = some (c :: cs) → r.text = "" →
      getGeminiAnalysis parseJson (GenOutcome.ok r) = unrecognizedJson) ∧
    (∀ c cs, r.candidates = some (c :: cs) →
      parseJson (trimString (stripCodeFence r.text)) = none →
      getGeminiAnalysis parseJson (GenOutcome.ok r) = unrecognizedJson) ∧
    getGeminiAnalysis parseJson GenOutcome.fail = Json.null ∧
    unrecognizedJson ≠ Json.null := by
  refine ⟨?_, ?_, ?_, ?_, ?_, rfl, by intro h; exact Json.noConfusion h⟩
  · intro hb
    simp [getGeminiAnalysis, hb]
  · intro c cs hc hfr
    by_cases hb : jsTruthyOptStr r.blockReason <;>
      simp [getGeminiAnalysis, hb, hc, hfr]
  · intro hc
    by_cases hb : jsTruthyOptStr r.blockReason <;>
      simp [getGeminiAnalysis, hb, hc]
  · intro c cs hc ht
    by_cases hb : jsTruthyOptStr r.blockReason <;>
      by_cases hf : c.finishReason = "STOP" <;>
        simp [getGeminiAnalysis, hb, hc, hf, ht]
  · intro c cs hc hp
    by_cases hb : jsTruthyOptStr r.blockReason <;>
      by_cases hf : c.finishReason = "STOP" <;>
        by_cases ht : r.text = "" <;>
          simp [getGeminiAnalysis, hb, hc, hf, ht, hp]

/-- Witness for C1 at concrete blocked, truncated, unparseable and failed
calls. -/
theorem C1_parser_degradation_vs_transport_witness :
    getGeminiAnalysis (fun _ => none)
      (GenOutcome.ok { blockReason := some "SAFETY",
                       candidates := some [{ finishReason := "STOP" }], text := "x" })
      = unrecognizedJson ∧
    getGeminiAnalysis (fun _ => none)
      (GenOutcome.ok { blockReason := none,
                       candidates := some [{ finishReason := "MAX_TOKENS" }], text := "x" })
      = unrecognizedJson ∧
    getGeminiAnalysis (fun _ => none)
      (GenOutcome.ok { blockReason := none,
                       candidates := some [{ finishReason := "STOP" }], text := "" })
      = unrecognizedJson ∧
    getGeminiAnalysis (fun _ => none)
      (GenOutcome.ok { blockReason := none,
                       candidates := some [{ finishReason := "STOP" }], text := "not json" })
      = unrecognizedJson ∧
    getGeminiAnalysis (fun _ => none) GenOutcome.fail = Json.null := by
  refine ⟨?_, ?_, ?_, ?_, ?_⟩
  · exact (C1_parser_degradation_vs_transport (fun _ => none) _).1 (by decide)
  · exact (C1_parser_degradation_vs_transport (fun _ => none) _).2.1
      { finishReason := "MAX_TOKENS" } [] rfl (by decide)
  · exact (C1_parser_degradation_vs_transport (fun _ => none) _).2.2.2.1
      { finishReason := "STOP" } [] rfl rfl
  · exact (C1_parser_degradation_vs_transport (fun _ => none) _).2.2.2.2.1
      { finishReason := "STOP" } [] rfl rfl
  · exact (C1_parser_degradation_vs_transport (fun _ => none)
      { blockReason := none, candidates := none, text := "" }).2.2.2.2.2.1

/-- Claim C2 counterexample: the well-formed JSON reply carrying only the
add_transaction intent tag is returned by the parser without schema
validation (not mapped to the unrecognized object), and the dispatcher
then throws inside addTransaction on the missing payload, answering with
the generic system-error reply instead of the did-not-understand reply. -/
theorem C2_counterexample :
    getGeminiAnalysis addIntentOnlyParse
      (GenOutcome.ok { blockReason := none,
                       candidates := some [{ finishReason := "STOP" }],
                       text := addIntentOnlyText })
      = Json.obj [("intent", Json.str "add_transaction")] ∧
    isIntentTag
      (getGeminiAnalysis addIntentOnlyParse
        (GenOutcome.ok { blockReason := none,
                         candidates := some [{ finishReason := "STOP" }],
                         text := addIntentOnlyText })) "unrecognized" = false ∧
    botOnText sampleDeps
      (getGeminiAnalysis addIntentOnlyParse
        (GenOutcome.ok { blockReason := none,
                         candidates := some [{ finishReason := "STOP" }],
                         text := addIntentOnlyText }))
      emptyStore
      = (serverErrMsg, emptyStore) ∧
    serverErrMsg ≠ didNotUnderstandMsg :=
  ⟨rfl, rfl, rfl, by decide⟩

/-- Claim C2 amended: a parse failure is mapped to the unrecognized
object inside the parser, and a well-formed reply whose intent tag is
none of the four known tags (and which is not the JSON literal null)
reaches the dispatcher catch-all, which answers the did-not-understand
reply and leaves the store unchanged; but replies bearing a known tag
with a missing payload are not validated and can reach the system-error
branch (see the counterexample). -/
theorem C2_amended_no_schema_validation
    (parseJson : String → Option Json) (r : GenResponse)
    (d : BotDeps) (st : Store) (v : Json) :
    (∀ c cs, r.candidates = some (c :: cs) →
      parseJson (trimString (stripCodeFence r.text)) = none →
      getGeminiAnalysis parseJson (GenOutcome.ok r) = unrecognizedJson) ∧
    (isIntentTag v "add_transaction" = false →
     isIntentTag v "update_balance" = false →
     isIntentTag v "set_reminder" = false →
     isIntentTag v "ask_question" = false →
     v.isNull = false →
     botOnText d v st = (didNotUnderstandMsg, st)) := by
  constructor
  · intro c cs hc hp
    by_cases hb : jsTruthyOptStr r.blockReason <;>
      by_cases hf : c.finishReason = "STOP" <;>
        by_cases ht : r.text = "" <;>
          simp [getGeminiAnalysis, hb, hc, hf, ht, hp]
  · intro h1 h2 h3 h4 hn
    cases v with
    | null => simp [Json.isNull] at hn
    | bool b => simp [botOnText, h1, h2, h3, h4]
    | num n => simp [botOnText, h1, h2, h3, h4]
    | str s => simp [botOnText, h1, h2, h3, h4]
    | arr xs => simp [botOnText, h1, h2, h3, h4]
    | obj fs => simp [botOnText, h1, h2, h3, h4]

/-- Witness for the amended C2 at a concrete unparseable reply and a
concrete unknown-tag reply. -/
theorem C2_amended_no_schema_validation_witness :
    getGeminiAnalysis (fun _ => none)
      (GenOutcome.ok { blockReason := none,
                       candidates := some [{ finishReason := "STOP" }],
                       text := "not json" })
      = unrecognizedJson ∧
    botOnText sampleDeps (Json.obj [("intent", Json.str "bogus")]) emptyStore
      = (didNotUnderstandMsg, emptyStore) :=
  ⟨(C2_amended_no_schema_validation (fun _ => none)
      { blockReason := none, candidates := some [{ finishReason := "STOP" }],
        text := "not json" }
      sampleDeps emptyStore Json.null).1 { finishReason := "STOP" } [] rfl rfl,
   (C2_amended_no_schema_validation (fun _ => none)
      { blockReason := none, candidates := none, text := "" }
      sampleDeps emptyStore (Json.obj [("intent", Json.str "bogus")])).2
      rfl rfl rfl rfl rfl⟩

/-- Claim C3 counterexample: a non-empty model-supplied category outside
the enumerated expense set is stored unchanged, not replaced by the
default, because the handler never consults the enumeration. -/
theorem C3_counterexample :
    (addTransaction sampleClock (some (Json.obj
      [("type", Json.str "expense"), ("amount", Json.num 5000),
       ("description", Json.str "بلیط"), ("category", Json.str "سفر")])) emptyStore).map
      (fun p => p.1.category) = Except.ok (Json.str "سفر") ∧
    "سفر" ∉ validCategoriesExpense ∧
    "سفر" ∉ validCategoriesIncome ∧
    ("سفر" : String) ≠ "سایر" :=
  ⟨rfl, by decide, by decide, by decide⟩

/-- Claim C3 amended: the stored category is the model-supplied value
whenever that value is truthy (in particular every non-empty string,
inside or outside the enumeration), and exactly the default when the
supplied category is absent or falsy; membership in the enumerated set
is never checked. -/
theorem C3_amended_category_truthy_fallback
    (c : ClockCtx) (j : Json) (st : Store) (ty am de : Json)
    (hty : getFieldJ j "type" = some ty)
    (ham : getFieldJ j "amount" = some am)
    (hde : getFieldJ j "description" = some de) :
    (∀ cat, getFieldJ j "category" = some cat → jsTruthyJ cat = true →
      (addTransaction c (some j) st).map (fun p => p.1.category) = Except.ok cat) ∧
    (∀ cat, getFieldJ j "category" = some cat → jsTruthyJ cat = false →
      (addTransaction c (some j) st).map (fun p => p.1.category)
        = Except.ok (Json.str "سایر")) ∧
    (getFieldJ j "category" = none →
      (addTransaction c (some j) st).map (fun p => p.1.category)
        = Except.ok (Json.str "سایر")) := by
  cases j with
  | null => exact absurd hty (by simp [getFieldJ])
  | bool b => exact absurd hty (by simp [getFieldJ])
  | num n => exact absurd hty (by simp [getFieldJ])
  | str s => exact absurd hty (by simp [getFieldJ])
  | arr xs => exact absurd hty (by simp [getFieldJ])
  | obj fs =>
    refine ⟨?_, ?_, ?_⟩
    · intro cat hcat htr
      simp [addTransaction, Except.map, hty, ham, hde, hcat, htr]
    · intro cat hcat htr
      simp [addTransaction, Except.map, hty, ham, hde, hcat, htr]
    · intro hcat
      simp [addTransaction, Except.map, hty, ham, hde, hcat]

/-- Witness for the amended C3: an enumerated category is kept, an empty
category falls back, an absent category falls back. -/
theorem C3_amended_category_truthy_fallback_witness :
    (addTransaction sampleClock (some (Json.obj
      [("type", Json.str "expense"), ("amount", Json.num 90000),
       ("description", Json.str "کفش"), ("category", Json.str "پوشاک")])) emptyStore).map
      (fun p => p.1.category) = Except.ok (Json.str "پوشاک") ∧
    (addTransaction sampleClock (some (Json.obj
      [("type", Json.str "expense"), ("amount", Json.num 90000),
       ("description", Json.str "کفش"), ("category", Json.str "")])) emptyStore).map
      (fun p => p.1.category) = Except.ok (Json.str "سایر") ∧
    (addTransaction sampleClock (some (Json.obj
      [("type", Json.str "expense"), ("amount", Json.num 90000),
       ("description", Json.str "کفش")])) emptyStore).map
      (fun p => p.1.category) = Except.ok (Json.str "سایر") :=
  ⟨(C3_amended_category_truthy_fallback sampleClock (Json.obj
      [("type", Json.str "expense"), ("amount", Json.num 90000),
       ("description", Json.str "کفش"), ("category", Json.str "پوشاک")]) emptyStore
      (Json.str "expense") (Json.num 90000) (Json.str "کفش") rfl rfl rfl).1
      (Json.str "پوشاک") rfl rfl,
   (C3_amended_category_truthy_fallback sampleClock (Json.obj
      [("type", Json.str "expense"), ("amount", Json.num 90000),
       ("description", Json.str "کفش"), ("category", Json.str "")]) emptyStore
      (Json.str "expense") (Json.num 90000) (Json.str "کفش") rfl rfl rfl).2.1
      (Json.str "") rfl rfl,
   (C3_amended_category_truthy_fallback sampleClock (Json.obj
      [("type", Json.str "expense"), ("amount", Json.num 90000),
       ("description", Json.str "کفش")]) emptyStore
      (Json.str "expense") (Json.num 90000) (Json.str "کفش") rfl rfl rfl).2.2 rfl⟩

/-- Claim C8 counterexample: a non-positive parsed amount is persisted
unchanged; nothing rejects it. -/
theorem C8_counterexample :
    (addTransaction sampleClock (some (Json.obj
      [("type", Json.str "expense"), ("amount", Json.num (-5000)),
       ("description", Json.str "تست")])) emptyStore).map
      (fun p => p.1.amount) = Except.ok (Json.num (-5000)) ∧
    ¬ ((0 : Int) < -5000) :=
  ⟨rfl, by decide⟩

/-- Claim C8 amended: the stored amount always equals the parser-supplied
amount, unchanged, and the stored record is appended as is; no
positivity precondition exists, so non-positive amounts are persisted
exactly like positive ones. -/
theorem C8_amended_amount_passthrough
    (c : ClockCtx) (j : Json) (st : Store) (ty am de : Json)
    (hty : getFieldJ j "type" = some ty)
    (ham : getFieldJ j "amount" = some am)
    (hde : getFieldJ j "description" = some de) :
    ∃ d st', addTransaction c (some j) st = Except.ok (d, st') ∧
      d.amount = am ∧ st'.transactions = st.transactions ++ [d] := by
  cases j with
  | null => exact absurd hty (by simp [getFieldJ])
  | bool b => exact absurd hty (by simp [getFieldJ])
  | num n => exact absurd hty (by simp [getFieldJ])
  | str s => exact absurd hty (by simp [getFieldJ])
  | arr xs => exact absurd hty (by simp [getFieldJ])
  | obj fs =>
    rcases hcat : getFieldJ (Json.obj fs) "category" with _ | cat
    · refine ⟨⟨ty, am, de, Json.str "سایر", c.dateStr, c.timeStr, c.nowTs⟩,
        { st with transactions := st.transactions ++
          [⟨ty, am, de, Json.str "سایر", c.dateStr, c.timeStr, c.nowTs⟩] }, ?_, rfl, rfl⟩
      simp [addTransaction, hty, ham, hde, hcat]
    · by_cases htr : jsTruthyJ cat
      · refine ⟨⟨ty, am, de, cat, c.dateStr, c.timeStr, c.nowTs⟩,
          { st with transactions := st.transactions ++
            [⟨ty, am, de, cat, c.dateStr, c.timeStr, c.nowTs⟩] }, ?_, rfl, rfl⟩
        simp [addTransaction, hty, ham, hde, hcat, htr]
      · refine ⟨⟨ty, am, de, Json.str "سایر", c.dateStr, c.timeStr, c.nowTs⟩,
          { st with transactions := st.transactions ++
            [⟨ty, am, de, Json.str "سایر", c.dateStr, c.timeStr, c.nowTs⟩] }, ?_, rfl, rfl⟩
        simp [addTransaction, hty, ham, hde, hcat, htr]

/-- Witness for the amended C8 at a concrete positive amount. -/
theorem C8_amended_amount_passthrough_witness :
    ∃ d st', addTransaction sampleClock (some (Json.obj
      [("type", Json.str "income"), ("amount", Json.num 150000),
       ("description", Json.str "فلش")])) emptyStore = Except.ok (d, st') ∧
      d.amount = Json.num 150000 ∧ st'.transactions = emptyStore.transactions ++ [d] :=
  C8_amended_amount_passthrough sampleClock _ emptyStore
    (Json.str "income") (Json.num 150000) (Json.str "فلش") rfl rfl rfl

/-- Claim C4 counterexample: when the requested clock time equals the
current Tehran clock time and the current seconds are zero, the stored
reminder is scheduled for the current instant itself, which is not in
the future at creation time. -/
theorem C4_counterexample :
    (setReminder { day := 3, hour := 10, minute := 30, second := 0 }
      (some (Json.obj [("time", Json.str "10:30"), ("message", Json.str "قسط")]))
      emptyStore).map
      (fun p => p.2.reminders.map (fun r => (r.runAt, r.isSent)))
      = Except.ok [(({ day := 3, hour := 10, minute := 30, second := 0 } : LocalTime), false)] ∧
    ¬ (({ day := 3, hour := 10, minute := 30, second := 0 } : LocalTime).toSec
        < ({ day := 3, hour := 10, minute := 30, second := 0 } : LocalTime).toSec) :=
  ⟨rfl, by decide⟩

/-- Claim C4 amended: a well-formed requested time strictly earlier than
the current clock schedules the next calendar day, strictly later
schedules today and lies strictly in the future; the stored clock
component always equals the requested one and the record is stored
unsent; the scheduled instant is never before the creation instant, but
at the boundary where the requested time equals the current clock it
falls strictly in the future (next day) only when the current seconds
are non-zero, and coincides with the creation instant when the current
seconds are zero. -/
theorem C4_amended_reminder_schedule
    (now : LocalTime) (j : Json) (t : String) (hr mi : Nat) (msg : Json) (st : Store)
    (htime : getFieldJ j "time" = some (Json.str t))
    (hhm : hmOfString t = some (hr, mi))
    (hmsg : getFieldJ j "message" = some msg)
    (hhr : hr < 24) (hmi : mi < 60)
    (hnh : now.hour < 24) (hnm : now.minute < 60) (hns : now.second < 60) :
    ∃ reply r, setReminder now (some j) st
        = Except.ok (reply, { st with reminders := st.reminders ++ [r] }) ∧
      r.isSent = false ∧ r.message = msg ∧
      r.runAt.hour = hr ∧ r.runAt.minute = mi ∧ r.runAt.second = 0 ∧
      now.toSec ≤ r.runAt.toSec ∧
      ((hr < now.hour ∨ (hr = now.hour ∧ mi < now.minute)) →
        r.runAt.day = now.day + 1) ∧
      ((now.hour < hr ∨ (now.hour = hr ∧ now.minute < mi)) →
        r.runAt.day = now.day ∧ now.toSec < r.runAt.toSec) ∧
      (hr = now.hour → mi = now.minute → 0 < now.second →
        r.runAt.day = now.day + 1 ∧ now.toSec < r.runAt.toSec) ∧
      (hr = now.hour → mi = now.minute → now.second = 0 → r.runAt = now) := by
  obtain ⟨nd, nh, nm, ns⟩ := now
  simp only at hnh hnm hns ⊢
  cases j with
  | null => exact absurd htime (by simp [getFieldJ])
  | bool b => exact absurd htime (by simp [getFieldJ])
  | num n => exact absurd htime (by simp [getFieldJ])
  | str s => exact absurd htime (by simp [getFieldJ])
  | arr xs => exact absurd htime (by simp [getFieldJ])
  | obj fs =>
    by_cases hlt : (({ day := nd, hour := hr, minute := mi, second := 0 } : LocalTime)).toSec
        < (({ day := nd, hour := nh, minute := nm, second := ns } : LocalTime)).toSec
    · have heq : setReminder ⟨nd, nh, nm, ns⟩ (some (Json.obj fs)) st
          = Except.ok ("✅ یادآوری تنظیم شد:\n\"" ++ jsDisplay msg ++ "\"\nدر ساعت " ++ t,
            { st with reminders := st.reminders ++ [⟨msg, ⟨nd + 1, hr, mi, 0⟩, false⟩] }) := by
        simp [setReminder, htime, hhm, hmsg, hlt]
      refine ⟨_, ⟨msg, ⟨nd + 1, hr, mi, 0⟩, false⟩, heq, rfl, rfl, rfl, rfl, rfl, ?_, ?_, ?_, ?_, ?_⟩
      · simp only [LocalTime.toSec] at hlt ⊢
        omega
      · intro _
        rfl
      · intro hlater
        exfalso
        simp only [LocalTime.toSec] at hlt
        omega
      · intro h1 h2 _
        subst h1
        subst h2
        exact ⟨rfl, by simp only [LocalTime.toSec] at hlt ⊢; omega⟩
      · intro h1 h2 h0
        exfalso
        simp only [LocalTime.toSec] at hlt
        omega
    · have heq : setReminder ⟨nd, nh, nm, ns⟩ (some (Json.obj fs)) st
          = Except.ok ("✅ یادآوری تنظیم شد:\n\"" ++ jsDisplay msg ++ "\"\nدر ساعت " ++ t,
            { st with reminders := st.reminders ++ [⟨msg, ⟨nd, hr, mi, 0⟩, false⟩] }) := by
        simp [setReminder, htime, hhm, hmsg, hlt]
      refine ⟨_, ⟨msg, ⟨nd, hr, mi, 0⟩, false⟩, heq, rfl, rfl, rfl, rfl, rfl, ?_, ?_, ?_, ?_, ?_⟩
      · simp only [LocalTime.toSec] at hlt ⊢
        omega
      · intro hearlier
        exfalso
        simp only [LocalTime.toSec] at hlt
        omega
      · intro hlater
        refine ⟨rfl, ?_⟩
        simp only [LocalTime.toSec] at hlt ⊢
        omega
      · intro h1 h2 h0
        exfalso
        simp only [LocalTime.toSec] at hlt
        omega
      · intro h1 h2 h0
        subst h1
        subst h2
        subst h0
        rfl

/-- Witness for the amended C4 at a concrete earlier and a concrete later
requested time. -/
theorem C4_amended_reminder_schedule_witness :
    (∃ reply r, setReminder { day := 3, hour := 10, minute := 30, second := 5 }
        (some (Json.obj [("time", Json.str "09:00"), ("message", Json.str "قسط")]))
        emptyStore
        = Except.ok (reply, { emptyStore with reminders := emptyStore.reminders ++ [r] }) ∧
      r.isSent = false ∧ r.message = Json.str "قسط" ∧
      r.runAt.hour = 9 ∧ r.runAt.minute = 0 ∧ r.runAt.second = 0 ∧
      ({ day := 3, hour := 10, minute := 30, second := 5 } : LocalTime).toSec ≤ r.runAt.toSec ∧
      ((9 < 10 ∨ (9 = 10 ∧ 0 < 30)) → r.runAt.day = 3 + 1) ∧
      ((10 < 9 ∨ (10 = 9 ∧ 30 < 0)) → r.runAt.day = 3 ∧
        ({ day := 3, hour := 10, minute := 30, second := 5 } : LocalTime).toSec < r.runAt.toSec) ∧
      (9 = 10 → 0 = 30 → 0 < 5 → r.runAt.day = 3 + 1 ∧
        ({ day := 3, hour := 10, minute := 30, second := 5 } : LocalTime).toSec < r.runAt.toSec) ∧
      (9 = 10 → 0 = 30 → 5 = 0 →
        r.runAt = { day := 3, hour := 10, minute := 30, second := 5 })) :=
  C4_amended_reminder_schedule
    { day := 3, hour := 10, minute := 30, second := 5 }
    (Json.obj [("time", Json.str "09:00"), ("message", Json.str "قسط")])
    "09:00" 9 0 (Json.str "قسط") emptyStore rfl rfl rfl
    (by decide) (by decide) (by decide) (by decide) (by decide)

/-- The plain accumulation of getReport for a single kind equals the sum
of the mapped amounts. -/
theorem foldl_add_amount (l : List TransactionDoc) (acc : Int) :
    l.foldl (fun a t => a + amountInt t.amount) acc
      = acc + ((l.map (fun t => amountInt t.amount)).sum) := by
  induction l generalizing acc with
  | nil => simp
  | cons t ts ih =>
    simp only [List.foldl_cons, List.map_cons, List.sum_cons, ih]
    ring

/-- The signed accumulation of getReport for the kind all splits into the
income sum minus the non-income sum. -/
theorem foldl_signed_amount (l : List TransactionDoc) (acc : Int) :
    l.foldl (fun a t =>
        if isTypeStr t.type "income" then a + amountInt t.amount
        else a - amountInt t.amount) acc
      = acc
        + ((l.filter (fun t => isTypeStr t.type "income")).map
            (fun t => amountInt t.amount)).sum
        - ((l.filter (fun t => !(isTypeStr t.type "income"))).map
            (fun t => amountInt t.amount)).sum := by
  induction l generalizing acc with
  | nil => simp
  | cons t ts ih =>
    by_cases h : isTypeStr t.type "income" <;>
      simp [List.foldl_cons, List.filter_cons, h, ih] <;> ring

/-- A record whose type strictly equals one string does not strictly
equal a different string. -/
theorem isTypeStr_ne (v : Json) (a b : String) (h : isTypeStr v a = true) (hne : a ≠ b) :
    isTypeStr v b = false := by
  cases v <;> simp [isTypeStr] at h ⊢
  intro hb
  exact absurd (h.symm.trans hb) hne

/-- Under the invariant that every record is income or expense, the
non-income records are exactly the expense records. -/
theorem filter_not_income_eq_expense (l : List TransactionDoc)
    (h : ∀ t ∈ l, isTypeStr t.type "income" = true ∨ isTypeStr t.type "expense" = true) :
    l.filter (fun t => !(isTypeStr t.type "income"))
      = l.filter (fun t => isTypeStr t.type "expense") := by
  induction l with
  | nil => rfl
  | cons t ts ih =>
    have ht := h t (by simp)
    have hts := ih (fun u hu => h u (by simp [hu]))
    rcases ht with h1 | h1
    · have h2 : isTypeStr t.type "expense" = false :=
        isTypeStr_ne t.type "income" "expense" h1 (by decide)
      simp [List.filter_cons, h1, h2, hts]
    · have h2 : isTypeStr t.type "income" = false := by
        cases hi : isTypeStr t.type "income"
        · rfl
        · exact absurd h1 (by simp [isTypeStr_ne t.type "income" "expense" hi (by decide)])
      simp [List.filter_cons, h1, h2, hts]

/-- Claim C5: over records that are all income or expense, the report for
kind all is the income sum minus the expense sum over the period window,
the report for a single kind is that kind's sum, and on the concrete day
with one income of 100 and one expense of 40 the today reports are 60
and 40. -/
theorem C5_report_totals (ctx : DateCtx) (period : String) (txs : List TransactionDoc)
    (h : ∀ t ∈ txs, isTypeStr t.type "income" = true ∨ isTypeStr t.type "expense" = true) :
    getReportTotal ctx "all" period txs
      = (((filterByPeriod ctx period txs).filter (fun t => isTypeStr t.type "income")).map
          (fun t => amountInt t.amount)).sum
        - (((filterByPeriod ctx period txs).filter (fun t => isTypeStr t.type "expense")).map
          (fun t => amountInt t.amount)).sum ∧
    getReportTotal ctx "expense" period txs
      = (((filterByPeriod ctx period txs).filter (fun t => isTypeStr t.type "expense")).map
          (fun t => amountInt t.amount)).sum ∧
    getReportTotal ctx "income" period txs
      = (((filterByPeriod ctx period txs).filter (fun t => isTypeStr t.type "income")).map
          (fun t => amountInt t.amount)).sum ∧
    getReportTotal sampleDateCtx "all" "today" sampleDayTxs = 60 ∧
    getReportTotal sampleDateCtx "expense" "today" sampleDayTxs = 40 := by
  have hmem : ∀ t ∈ filterByPeriod ctx period txs,
      isTypeStr t.type "income" = true ∨ isTypeStr t.type "expense" = true := by
    intro t ht
    apply h
    unfold filterByPeriod at ht
    split at ht
    · exact List.mem_of_mem_filter ht
    · split at ht
      · exact List.mem_of_mem_filter ht
      · exact ht
  refine ⟨?_, ?_, ?_, rfl, rfl⟩
  · have : getReportTotal ctx "all" period txs
        = (filterByPeriod ctx period txs).foldl (fun a t =>
            if isTypeStr t.type "income" then a + amountInt t.amount
            else a - amountInt t.amount) 0 := by
      simp [getReportTotal, filterByType]
    rw [this, foldl_signed_amount,
      filter_not_income_eq_expense (filterByPeriod ctx period txs) hmem]
    ring
  · have : getReportTotal ctx "expense" period txs
        = ((filterByPeriod ctx period txs).filter
            (fun t => isTypeStr t.type "expense")).foldl
            (fun a t => a + amountInt t.amount) 0 := by
      simp [getReportTotal, filterByType]
    rw [this, foldl_add_amount]
    ring
  · have : getReportTotal ctx "income" period txs
        = ((filterByPeriod ctx period txs).filter
            (fun t => isTypeStr t.type "income")).foldl
            (fun a t => a + amountInt t.amount) 0 := by
      simp [getReportTotal, filterByType]
    rw [this, foldl_add_amount]
    ring

/-- Witness for C5 at the concrete sample day. -/
theorem C5_report_totals_witness :
    getReportTotal sampleDateCtx "all" "today" sampleDayTxs = 60 ∧
    getReportTotal sampleDateCtx "expense" "today" sampleDayTxs = 40 :=
  ⟨(C5_report_totals sampleDateCtx "today" sampleDayTxs (by decide)).2.2.2.1,
   (C5_report_totals sampleDateCtx "today" sampleDayTxs (by decide)).2.2.2.2⟩

/-- Claim C6: a sender identity different from the configured operator
identity yields exactly the fixed not-authorized reply and an unchanged
store, for every downstream environment, so no execution handler can
observe or affect anything. -/
theorem C6_access_guard (c : String) (fromId : Option String) (d : BotDeps) (st : Store)
    (hne : fromId ≠ some c) :
    handleMessage (some c) fromId d st = (notAuthMsg, st) := by
  have hb : (fromId == some c) = false := by
    cases hx : fromId == some c
    · rfl
    · exact absurd (eq_of_beq hx) hne
  simp [handleMessage, hb]

/-- Witness for C6 at a concrete foreign sender. -/
theorem C6_access_guard_witness :
    handleMessage (some "111") (some "222") sampleDeps emptyStore
      = (notAuthMsg, emptyStore) :=
  C6_access_guard "111" (some "222") sampleDeps emptyStore (by decide)

/-- Claim C9: an empty filtered window yields the dedicated
no-transactions message, the all-accounts query with no registered
account yields the guidance message, and an absent account name yields
the dedicated not-found message. -/
theorem C9_empty_result_messages (ctx : DateCtx) (ty period : String)
    (txs : List TransactionDoc) (st : Store) (n : String) :
    (filterByType ty (filterByPeriod ctx period txs) = [] →
      getTransactionList ctx ty period txs
        = "هیچ تراکنشی برای " ++ periodTextOf period ++ " یافت نشد.") ∧
    (st.accounts = [] →
      getAccountBalances "all" st
        = "هنوز هیچ حسابی ثبت نکرده‌اید. (مثال: موجودی بانک ملی 500000)") ∧
    (n ≠ "all" → lookupDoc st.accounts n = none →
      getAccountBalances n st = "حسابی به نام \"" ++ n ++ "\" یافت نشد.") := by
  refine ⟨?_, ?_, ?_⟩
  · intro hq
    simp [getTransactionList, hq]
  · intro ha
    simp [getAccountBalances, ha]
  · intro hne hl
    simp [getAccountBalances, hne, hl]

/-- Witness for C9 at an empty store. -/
theorem C9_empty_result_messages_witness :
    getTransactionList sampleDateCtx "expense" "today" []
      = "هیچ تراکنشی برای " ++ periodTextOf "today" ++ " یافت نشد." ∧
    getAccountBalances "all" emptyStore
      = "هنوز هیچ حسابی ثبت نکرده‌اید. (مثال: موجودی بانک ملی 500000)" ∧
    getAccountBalances "ملی" emptyStore
      = "حسابی به نام \"" ++ "ملی" ++ "\" یافت نشد." :=
  ⟨(C9_empty_result_messages sampleDateCtx "expense" "today" [] emptyStore "ملی").1 rfl,
   (C9_empty_result_messages sampleDateCtx "expense" "today" [] emptyStore "ملی").2.1 rfl,
   (C9_empty_result_messages sampleDateCtx "expense" "today" [] emptyStore "ملی").2.2
     (by decide) rfl⟩

/-- Claim C10: a store-read failure yields the database-error reply for
every analyst collaborator (so before and independently of the second
generative call, with no store effect since the handler only reads); a
failing analyst call yields the analysis-error reply; and the raw
context is empty, triggering the no-data placeholder substitution,
exactly when the thirty-day transaction window, the accounts and the
installments are all empty. -/
theorem C10_ask_question_failures
    (ac : String → String → Except Unit String)
    (now30 : Nat) (q : Option Json) (st : Store) :
    (handleAskQuestion true ac now30 q st = dbErrMsg) ∧
    ((∀ p u, ac p u = Except.error ()) →
      handleAskQuestion false ac now30 q st = aiErrMsg) ∧
    (contextDataRaw now30 st = "" ↔
      (st.transactions.filter (fun t => now30 ≤ t.createdAt) = [] ∧
       st.accounts = [] ∧ st.installments = [])) := by
  refine ⟨rfl, ?_, ?_⟩
  · intro hac
    simp [handleAskQuestion, hac]
  · constructor
    · intro hraw
      by_cases hT : st.transactions.filter (fun t => now30 ≤ t.createdAt) = []
      · by_cases hA : st.accounts = []
        · by_cases hI : st.installments = []
          · exact ⟨hT, hA, hI⟩
          · exfalso
            have h2 := hraw
            simp [contextDataRaw, hT, hA, hI] at h2
            exact ne_empty_append_left (by decide) h2
        · exfalso
          have h2 := hraw
          simp [contextDataRaw, hT, hA] at h2
          exact ne_empty_append_left (ne_empty_append_left (by decide)) h2
      · exfalso
        have h2 := hraw
        simp [contextDataRaw, hT] at h2
        exact ne_empty_append_left
          (ne_empty_append_left (ne_empty_append_left (by decide))) h2
    · rintro ⟨hT, hA, hI⟩
      simp [contextDataRaw, hT, hA, hI]

/-- Witness for C10 at an empty store with failing collaborators. -/
theorem C10_ask_question_failures_witness :
    handleAskQuestion true (fun _ _ => Except.ok "متن") 0 none emptyStore = dbErrMsg ∧
    handleAskQuestion false (fun _ _ => Except.error ()) 0 none emptyStore = aiErrMsg ∧
    (contextDataRaw 0 emptyStore = "" ↔
      (emptyStore.transactions.filter (fun t => 0 ≤ t.createdAt) = [] ∧
       emptyStore.accounts = [] ∧ emptyStore.installments = [])) :=
  ⟨(C10_ask_question_failures (fun _ _ => Except.ok "متن") 0 none emptyStore).1,
   (C10_ask_question_failures (fun _ _ => Except.error ()) 0 none emptyStore).2.1
     (fun _ _ => rfl),
   (C10_ask_question_failures (fun _ _ => Except.error ()) 0 none emptyStore).2.2⟩

/-- A merge-written field reads back as written. -/
theorem lookupField_setField_self (d : FieldDoc) (k : String) (v : Json) :
    lookupField (setField d k v) k = some v := by
  induction d with
  | nil => simp [setField, lookupField]
  | cons p ps ih =>
    by_cases h : p.1 = k <;> simp [setField, lookupField, h, ih]

/-- A merge write of one field leaves every other field unchanged. -/
theorem lookupField_setField_other (d : FieldDoc) (k k' : String) (v : Json)
    (h : k' ≠ k) :
    lookupField (setField d k v) k' = lookupField d k' := by
  have h2 : ¬ (k = k') := fun he => h he.symm
  induction d with
  | nil => simp [setField, lookupField, h2]
  | cons p ps ih =>
    by_cases hp : p.1 = k
    · subst hp
      simp [setField, lookupField, h2]
    · simp [setField, lookupField, hp, ih]

/-- The balance field after the three-field merge write of
updateAccountBalance. -/
theorem lookupField_merge3_balance (d : FieldDoc) (nv bv tsv : Json) :
    lookupField (mergeFields d [("name", nv), ("balance", bv), ("updatedAt", tsv)])
      "balance" = some bv := by
  simp only [mergeFields, List.foldl_cons, List.foldl_nil]
  rw [lookupField_setField_other _ _ _ _ (by decide)]
  exact lookupField_setField_self _ _ _

/-- Every field outside the three written ones survives the merge write
of updateAccountBalance. -/
theorem lookupField_merge3_other (d : FieldDoc) (nv bv tsv : Json) (k : String)
    (h1 : k ≠ "name") (h2 : k ≠ "balance") (h3 : k ≠ "updatedAt") :
    lookupField (mergeFields d [("name", nv), ("balance", bv), ("updatedAt", tsv)]) k
      = lookupField d k := by
  simp only [mergeFields, List.foldl_cons, List.foldl_nil]
  rw [lookupField_setField_other _ _ _ _ h3, lookupField_setField_other _ _ _ _ h2,
    lookupField_setField_other _ _ _ _ h1]

/-- The upserted document of a merge write keyed by its id. -/
theorem lookupDoc_setDocMerge_self (docs : List (String × FieldDoc)) (key : String)
    (nv bv tsv : Json) :
    lookupDoc (setDocMerge docs key [("name", nv), ("balance", bv), ("updatedAt", tsv)]) key
      = some (mergeFields ((lookupDoc docs key).getD [])
          [("name", nv), ("balance", bv), ("updatedAt", tsv)]) := by
  induction docs with
  | nil => simp [setDocMerge, lookupDoc, mergeFields, setField]
  | cons p ps ih =>
    by_cases h : p.1 = key <;> simp [setDocMerge, lookupDoc, h, ih]

/-- A merge write keyed by one id leaves every other document unchanged. -/
theorem lookupDoc_setDocMerge_other (docs : List (String × FieldDoc)) (key m : String)
    (data : FieldDoc) (h : m ≠ key) :
    lookupDoc (setDocMerge docs key data) m = lookupDoc docs m := by
  have h2 : ¬ (key = m) := fun he => h he.symm
  induction docs with
  | nil => simp [setDocMerge, lookupDoc, h2]
  | cons p ps ih =>
    by_cases hp : p.1 = key
    · subst hp
      simp [setDocMerge, lookupDoc, h2]
    · simp [setDocMerge, lookupDoc, hp, ih]

/-- One well-formed UpdateBalance call unfolds to the merge write. -/
theorem stepBalance_eq (name : String) (b : Int) (ts : Nat) (st : Store) :
    stepBalance name b ts st = { st with accounts := setDocMerge st.accounts name [("name", Json.str name), ("balance", Json.num b), ("updatedAt", Json.num (Int.ofNat ts))] } := by
  simp [stepBalance, updateAccountBalance, mkBalanceCall, getFieldJ]

/-- After one well-formed UpdateBalance call the stored balance is the
supplied one. -/
theorem stepBalance_balance (name : String) (b : Int) (ts : Nat) (st : Store) :
    getAccountField (stepBalance name b ts st) name "balance" = some (Json.num b) := by
  rw [stepBalance_eq]
  simp only [getAccountField, lookupDoc_setDocMerge_self]
  exact lookupField_merge3_balance _ _ _ _

/-- The last balance of a non-empty call sequence wins. -/
theorem runBalanceUpdates_last (name : String) (calls : List (Int × Nat))
    (b : Int) (ts : Nat) (st : Store) (h : calls.getLast? = some (b, ts)) :
    getAccountField (runBalanceUpdates name calls st) name "balance"
      = some (Json.num b) := by
  induction calls generalizing st with
  | nil => simp at h
  | cons c cs ih =>
    cases cs with
    | nil =>
      obtain ⟨cb, cts⟩ := c
      simp at h
      obtain ⟨hb, hts⟩ := h
      simp only [runBalanceUpdates, List.foldl_cons, List.foldl_nil]
      rw [hb, hts]
      exact stepBalance_balance name b ts st
    | cons c2 cs2 =>
      have h2 : (c2 :: cs2).getLast? = some (b, ts) := by
        rw [List.getLast?_cons_cons] at h
        exact h
      have h3 := ih (stepBalance name c.1 c.2 st) h2
      simpa [runBalanceUpdates, List.foldl_cons] using h3

/-- Claim C7: over any sequence of UpdateBalance calls for one account
name, the stored balance afterwards is the last call's balance, one call
leaves every field of that account other than name, balance and
updatedAt unchanged, and leaves every other account fully unchanged. -/
theorem C7_balance_upsert (name : String) (st : Store) :
    (∀ calls b ts, calls.getLast? = some (b, ts) →
      getAccountField (runBalanceUpdates name calls st) name "balance"
        = some (Json.num b)) ∧
    (∀ b ts k, k ≠ "name" → k ≠ "balance" → k ≠ "updatedAt" →
      getAccountField (stepBalance name b ts st) name k = getAccountField st name k) ∧
    (∀ b ts m k, m ≠ name →
      getAccountField (stepBalance name b ts st) m k = getAccountField st m k) := by
  refine ⟨?_, ?_, ?_⟩
  · intro calls b ts h
    exact runBalanceUpdates_last name calls b ts st h
  · intro b ts k h1 h2 h3
    rw [stepBalance_eq]
    simp only [getAccountField, lookupDoc_setDocMerge_self]
    rw [lookupField_merge3_other _ _ _ _ _ h1 h2 h3]
    cases hl : lookupDoc st.accounts name <;> simp [hl, lookupField]
  · intro b ts m k hm
    rw [stepBalance_eq]
    simp only [getAccountField]
    rw [lookupDoc_setDocMerge_other _ _ _ _ hm]

/-- Witness for C7: two calls on one name leave the later balance, and a
single call preserves a foreign field and a foreign account. -/
theorem C7_balance_upsert_witness :
    getAccountField (runBalanceUpdates "ملی" [(5, 1), (7, 2)] emptyStore) "ملی" "balance"
      = some (Json.num 7) ∧
    getAccountField (stepBalance "ملی" 5 1 emptyStore) "ملی" "iban"
      = getAccountField emptyStore "ملی" "iban" ∧
    getAccountField (stepBalance "ملی" 5 1 emptyStore) "صادرات" "balance"
      = getAccountField emptyStore "صادرات" "balance" :=
  ⟨(C7_balance_upsert "ملی" emptyStore).1 [(5, 1), (7, 2)] 7 2 rfl,
   (C7_balance_upsert "ملی" emptyStore).2.1 5 1 "iban"
     (by decide) (by decide) (by decide),
   (C7_balance_upsert "ملی" emptyStore).2.2 5 1 "صادرات" "balance" (by decide)⟩

end FinanceBot
